import Mathlib

/-!
Shallow embedding of `google-beta/resource_compute_instance_group_manager.go`
(the managed-instance-group resource adapter) together with proofs about its
identifier codec, fixed-or-percent transcoders, update/delete lifecycle logic
and state importer.

Go strings are modelled as lists of characters (`Str`), Go `int`/`int64` as
`Int`, nil-able pointers as `Option`, fallible calls as `Except Str`.
-/

namespace IGM

/-- Go strings, modelled as lists of characters. -/
abbrev Str := List Char

/-- One character of the `[a-z0-9-]` character class used by
`instanceGroupManagerIdRegex` / `instanceGroupManagerIdNameRegex`. -/
def isIdChar (c : Char) : Bool :=
  ('a' ≤ c && c ≤ 'z') || ('0' ≤ c && c ≤ '9') || c == '-'

/-- `instanceGroupManagerIdNameRegex = ^[a-z0-9-]+$` (source line 20). -/
def instanceGroupManagerIdNameRegexMatch (s : Str) : Bool :=
  !s.isEmpty && s.all isIdChar

/-- Modelled from the spec: `ProjectRegex` is defined elsewhere in the
repository (not under `src/`); the spec only says the three-part form is
"validated against a project-name-zone pattern".  We model the project
pattern as a nonempty string over `[a-z0-9-]` (in particular it rejects the
empty string and contains no `/`, which is all the proofs below rely on). -/
def projectRegexMatch (s : Str) : Bool :=
  !s.isEmpty && s.all isIdChar

/-- Go `strings.Split` specialised to a one-character separator (used with
`"/"` at source line 782). -/
def splitOnChar (sep : Char) : Str → List Str
  | [] => [[]]
  | c :: cs =>
    if c = sep then [] :: splitOnChar sep cs
    else
      match splitOnChar sep cs with
      | [] => [[c]]
      | h :: t => (c :: h) :: t

/-- The composite identifier `{Project, Zone, Name}` (source lines 769-773). -/
structure instanceGroupManagerId where
  Project : Str
  Zone : Str
  Name : Str
deriving DecidableEq, Repr

/-- `instanceGroupManagerId.terraformId`: `fmt.Sprintf("%s/%s/%s", ...)`
(source lines 775-777). -/
def instanceGroupManagerId.terraformId (i : instanceGroupManagerId) : Str :=
  i.Project ++ ('/' :: i.Zone) ++ ('/' :: i.Name)

/-- `instanceGroupManagerIdRegex = ^ProjectRegex/[a-z0-9-]+/[a-z0-9-]+$`
(source line 19).  Because neither the project pattern nor `[a-z0-9-]+`
admits a `/`, a full match is exactly: splitting on `/` yields three parts,
each matching its pattern. -/
def instanceGroupManagerIdRegexMatch (s : Str) : Bool :=
  match splitOnChar '/' s with
  | [p, z, n] =>
    projectRegexMatch p && instanceGroupManagerIdNameRegexMatch z &&
      instanceGroupManagerIdNameRegexMatch n
  | _ => false

/-- The error message of `parseInstanceGroupManagerId`'s default case
(source line 793). -/
def invalidIgmIdMsg : Str :=
  "Invalid instance group manager specifier. Expecting either \x7bprojectId\x7d/\x7bzone\x7d/\x7bname\x7d or \x7bname\x7d, where \x7bprojectId\x7d and \x7bzone\x7d will be derived from the provider.".data

/-- `parseInstanceGroupManagerId` (source lines 779-795): a full-form id is
split on `/` into project/zone/name; a bare name yields empty project and
zone; anything else is an error. -/
def parseInstanceGroupManagerId (id : Str) : Except Str instanceGroupManagerId :=
  if instanceGroupManagerIdRegexMatch id then
    let parts := splitOnChar '/' id
    .ok ⟨parts.getD 0 [], parts.getD 1 [], parts.getD 2 []⟩
  else if instanceGroupManagerIdNameRegexMatch id then
    .ok ⟨[], [], id⟩
  else
    .error invalidIgmIdMsg

/-! ## Fixed-or-percent transcoders -/

/-- `computeBeta.FixedOrPercent` (the API union struct), with the
`ForceSendFields`/`NullFields` serialisation markers. -/
structure FixedOrPercent where
  Fixed : Int := 0
  Percent : Int := 0
  ForceSendFields : List Str := []
  NullFields : List Str := []
deriving DecidableEq, Repr

/-- One element of the flat `target_size` configuration/state list: a schema
map with optional `fixed` and `percent` keys. -/
structure FixedOrPercentMap where
  fixed : Option Int := none
  percent : Option Int := none
deriving DecidableEq, Repr

/-- Reading an integer key of a schema map: the plugin framework supplies a
`0` default for an optional key that is absent, which is what the Go type
assertion `data["..."].(int)` observes. -/
def intField (o : Option Int) : Int := o.getD 0

/-- `expandFixedOrPercent` (source lines 654-667): iterate over the (at most
one-element) configured list; a positive `percent` sets `Percent`, otherwise
`Fixed` is set (and force-sent, so that an explicit 0 is transmitted). -/
def expandFixedOrPercent (configured : List FixedOrPercentMap) : FixedOrPercent :=
  configured.foldl
    (fun fixedOrPercent data =>
      if intField data.percent > 0 then
        { fixedOrPercent with Percent := intField data.percent }
      else
        { fixedOrPercent with
            Fixed := intField data.fixed
            ForceSendFields := ["Fixed".data] })
    {}

/-- `flattenFixedOrPercent` (source lines 338-348): emit a `percent`-only map
when `Percent > 0`, else a `fixed`-only map when `Fixed > 0`, else the empty
list. -/
def flattenFixedOrPercent (fixedOrPercent : FixedOrPercent) : List FixedOrPercentMap :=
  if fixedOrPercent.Percent > 0 then
    [{ percent := some fixedOrPercent.Percent }]
  else if fixedOrPercent.Fixed > 0 then
    [{ fixed := some fixedOrPercent.Fixed }]
  else
    []

/-- `computeBeta.InstanceGroupManagerUpdatePolicy` (the fields this adapter
uses; the Go field `Type` is rendered `Type_`). -/
structure InstanceGroupManagerUpdatePolicy where
  MinimalAction : Str := []
  Type_ : Str := []
  MaxSurge : Option FixedOrPercent := none
  MaxUnavailable : Option FixedOrPercent := none
  MinReadySec : Int := 0
deriving DecidableEq, Repr

/-- The single state map `flattenUpdatePolicy` produces (every key is
assigned, so the fields are plain values). -/
structure UpdatePolicyMap where
  max_surge_fixed : Int
  max_surge_percent : Int
  max_unavailable_fixed : Int
  max_unavailable_percent : Int
  min_ready_sec : Int
  minimal_action : Str
  type_ : Str
deriving DecidableEq, Repr

/-- `flattenUpdatePolicy` (source lines 728-752): a nil policy flattens to the
empty list; otherwise both the `Fixed` and the `Percent` component of
`MaxSurge`/`MaxUnavailable` are copied verbatim into the map (0 when the
component struct is nil). -/
def flattenUpdatePolicy (updatePolicy : Option InstanceGroupManagerUpdatePolicy) :
    List UpdatePolicyMap :=
  match updatePolicy with
  | none => []
  | some u =>
    let surge : Int × Int := match u.MaxSurge with
      | some ms => (ms.Fixed, ms.Percent)
      | none => (0, 0)
    let unavailable : Int × Int := match u.MaxUnavailable with
      | some mu => (mu.Fixed, mu.Percent)
      | none => (0, 0)
    [{ max_surge_fixed := surge.1
       max_surge_percent := surge.2
       max_unavailable_fixed := unavailable.1
       max_unavailable_percent := unavailable.2
       min_ready_sec := u.MinReadySec
       minimal_action := u.MinimalAction
       type_ := u.Type_ }]

/-- One element of the configured `update_policy` list: the four
fixed/percent keys always read (with 0 default), `min_ready_sec` read with a
presence check (`if v, ok := ...`). -/
structure UpdatePolicyConfigMap where
  minimal_action : Str := []
  type_ : Str := []
  max_surge_fixed : Int := 0
  max_surge_percent : Int := 0
  max_unavailable_fixed : Int := 0
  max_unavailable_percent : Int := 0
  min_ready_sec : Option Int := none
deriving DecidableEq, Repr

/-- `expandUpdatePolicy` (source lines 669-713): percent wins over fixed for
`MaxSurge` and `MaxUnavailable`; the fixed branch force-sends `Fixed` so an
explicit 0 is transmitted. -/
def expandUpdatePolicy (configured : List UpdatePolicyConfigMap) :
    InstanceGroupManagerUpdatePolicy :=
  configured.foldl
    (fun updatePolicy data =>
      let updatePolicy :=
        { updatePolicy with
            MinimalAction := data.minimal_action
            Type_ := data.type_ }
      let updatePolicy :=
        if data.max_surge_percent > 0 then
          { updatePolicy with
              MaxSurge := some
                { Percent := data.max_surge_percent
                  NullFields := ["Fixed".data] } }
        else
          { updatePolicy with
              MaxSurge := some
                { Fixed := data.max_surge_fixed
                  ForceSendFields := ["Fixed".data]
                  NullFields := ["Percent".data] } }
      let updatePolicy :=
        if data.max_unavailable_percent > 0 then
          { updatePolicy with
              MaxUnavailable := some
                { Percent := data.max_unavailable_percent
                  NullFields := ["Fixed".data] } }
        else
          { updatePolicy with
              MaxUnavailable := some
                { Fixed := data.max_unavailable_fixed
                  ForceSendFields := ["Fixed".data]
                  NullFields := ["Percent".data] } }
      match data.min_ready_sec with
      | some v => { updatePolicy with MinReadySec := v }
      | none => updatePolicy)
    {}

/-! ## Remaining schema-to-API transcoders -/

/-- `computeBeta.NamedPort`. -/
structure NamedPort where
  Name : Str
  Port : Int
deriving DecidableEq, Repr

/-- One element of the configured `named_port` set. -/
structure NamedPortMap where
  name : Str := []
  port : Int := 0
deriving DecidableEq, Repr

/-- `getNamedPortsBeta` (source lines 252-263). -/
def getNamedPortsBeta (nps : List NamedPortMap) : List NamedPort :=
  nps.map (fun np => { Name := np.name, Port := np.port })

/-- `computeBeta.InstanceGroupManagerAutoHealingPolicy`. -/
structure InstanceGroupManagerAutoHealingPolicy where
  HealthCheck : Str
  InitialDelaySec : Int
deriving DecidableEq, Repr

/-- One element of the configured `auto_healing_policies` list. -/
structure AutoHealingPolicyMap where
  health_check : Str := []
  initial_delay_sec : Int := 0
deriving DecidableEq, Repr

/-- `expandAutoHealingPolicies` (source lines 624-636). -/
def expandAutoHealingPolicies (configured : List AutoHealingPolicyMap) :
    List InstanceGroupManagerAutoHealingPolicy :=
  configured.map (fun data =>
    { HealthCheck := data.health_check
      InitialDelaySec := data.initial_delay_sec })

/-- `computeBeta.InstanceGroupManagerVersion`; `expandVersions` always builds
a non-nil `TargetSize`, so it is a plain field here. -/
structure InstanceGroupManagerVersion where
  Name : Str
  InstanceTemplate : Str
  TargetSize : FixedOrPercent
deriving DecidableEq, Repr

/-- One element of the configured `version` list. -/
structure VersionMap where
  name : Str := []
  instance_template : Str := []
  target_size : List FixedOrPercentMap := []
deriving DecidableEq, Repr

/-- `expandVersions` (source lines 638-652). -/
def expandVersions (configured : List VersionMap) : List InstanceGroupManagerVersion :=
  configured.map (fun data =>
    { Name := data.name
      InstanceTemplate := data.instance_template
      TargetSize := expandFixedOrPercent data.target_size })

/-- `convertStringSet`: converts a `*schema.Set` of strings to a slice; the
set is modelled directly as its element list. -/
def convertStringSet (s : List Str) : List Str := s

/-! ## The update path -/

/-- `computeBeta.InstanceGroupManager`, restricted to the fields the update
path assigns (source lines 476-500); a Go nil slice is `[]`, a nil pointer is
`none` — both are absent from the serialised request. -/
structure InstanceGroupManager where
  Fingerprint : Str := []
  TargetPools : List Str := []
  AutoHealingPolicies : List InstanceGroupManagerAutoHealingPolicy := []
  Versions : List InstanceGroupManagerVersion := []
  UpdatePolicy : Option InstanceGroupManagerUpdatePolicy := none
  ForceSendFields : List Str := []
deriving DecidableEq, Repr

/-- The slice of stored resource data the update path reads: the current
configured values plus the host framework's `HasChange` verdict per field. -/
structure UpdateData where
  fingerprint : Str := []
  target_pools : List Str := []
  auto_healing_policies : List AutoHealingPolicyMap := []
  version : List VersionMap := []
  update_policy : List UpdatePolicyConfigMap := []
  named_port : List NamedPortMap := []
  target_size : Int := 0
  hasChange_target_pools : Bool := false
  hasChange_auto_healing_policies : Bool := false
  hasChange_version : Bool := false
  hasChange_update_policy : Bool := false
  hasChange_named_port : Bool := false
  hasChange_target_size : Bool := false

/-- One remote call the update path can issue. -/
inductive UpdateCall where
  | patch (body : InstanceGroupManager)
  | setNamedPorts (req : List NamedPort)
  | resize (targetSize : Int)
deriving DecidableEq, Repr

/-- Outcomes the environment supplies for the update path's remote calls and
their operation waits (`none` = success). -/
structure UpdateEnv where
  patchErr : Option Str := none
  patchWaitErr : Option Str := none
  setNamedPortsErr : Option Str := none
  setNamedPortsWaitErr : Option Str := none
  resizeErr : Option Str := none
  resizeWaitErr : Option Str := none

/-- The patch body built at source lines 476-500: the stored fingerprint is
always echoed; each of the four patchable fields is assigned exactly when it
changed, with `AutoHealingPolicies` additionally force-sent on change. -/
def updatedManagerFor (d : UpdateData) : InstanceGroupManager :=
  let m : InstanceGroupManager := { Fingerprint := d.fingerprint }
  let m := if d.hasChange_target_pools then
      { m with TargetPools := convertStringSet d.target_pools }
    else m
  let m := if d.hasChange_auto_healing_policies then
      { m with
          AutoHealingPolicies := expandAutoHealingPolicies d.auto_healing_policies
          ForceSendFields := m.ForceSendFields ++ ["AutoHealingPolicies".data] }
    else m
  let m := if d.hasChange_version then
      { m with Versions := expandVersions d.version }
    else m
  if d.hasChange_update_policy then
    { m with UpdatePolicy := some (expandUpdatePolicy d.update_policy) }
  else m

/-- The resize stage of the update path (source lines 540-554): `target_size`
is sent through a separate resize call, never through the patch. -/
def updateResizeStage (d : UpdateData) (env : UpdateEnv)
    (calls : List UpdateCall) : List UpdateCall × Option Str :=
  if d.hasChange_target_size then
    let calls := calls ++ [UpdateCall.resize d.target_size]
    match env.resizeErr with
    | some e => (calls, some ("Error updating InstanceGroupManager: ".data ++ e))
    | none =>
      match env.resizeWaitErr with
      | some e => (calls, some e)
      | none => (calls, none)
  else (calls, none)

/-- The set-named-ports stage of the update path (source lines 516-537):
named ports are sent through a separate call against the instance group. -/
def updateNamedPortsStage (d : UpdateData) (env : UpdateEnv)
    (calls : List UpdateCall) : List UpdateCall × Option Str :=
  if d.hasChange_named_port then
    let calls := calls ++
      [UpdateCall.setNamedPorts (getNamedPortsBeta d.named_port)]
    match env.setNamedPortsErr with
    | some e => (calls, some ("Error updating InstanceGroupManager: ".data ++ e))
    | none =>
      match env.setNamedPortsWaitErr with
      | some e => (calls, some e)
      | none => updateResizeStage d env calls
  else updateResizeStage d env calls

/-- `resourceComputeInstanceGroupManagerUpdate` (source lines 463-557),
returning the remote calls issued in order together with the error it
returns (`none` = it fell through to the final read). -/
def resourceComputeInstanceGroupManagerUpdate (d : UpdateData)
    (env : UpdateEnv) : List UpdateCall × Option Str :=
  let change := d.hasChange_target_pools || d.hasChange_auto_healing_policies ||
    d.hasChange_version || d.hasChange_update_policy
  if change then
    let calls := [UpdateCall.patch (updatedManagerFor d)]
    match env.patchErr with
    | some e => (calls, some ("Error updating managed group instances: ".data ++ e))
    | none =>
      match env.patchWaitErr with
      | some e => (calls, some e)
      | none => updateNamedPortsStage d env calls
  else updateNamedPortsStage d env []

/-- Stored data in which only `target_pools` changed. -/
def updateOnlyTargetPools : UpdateData :=
  { fingerprint := "fp-123".data
    target_pools := ["pool-a".data]
    hasChange_target_pools := true }

/-- Stored data in which only `named_port` changed. -/
def updateOnlyNamedPort : UpdateData :=
  { named_port := [{ name := "http".data, port := 8080 }]
    hasChange_named_port := true }

/-- Stored data in which only `target_size` changed. -/
def updateOnlyTargetSize : UpdateData :=
  { target_size := 5
    hasChange_target_size := true }

/-! ## The delete path -/

/-- `strings.Contains`, on the character-list model of strings. -/
def strContains (s pat : Str) : Bool :=
  match s with
  | [] => pat.isEmpty
  | _ :: cs => pat.isPrefixOf s || strContains cs pat

/-- Environment of one delete invocation: the outcome of the k-th delete
attempt (`none` = success; attempt 0 is the initial request), of the k-th
operation wait (wait 0 follows the successful delete request), and of the
k-th `InstanceGroups.Get` size fetch. -/
structure DeleteEnv where
  deleteAttempt : Nat → Option Str
  operationWait : Nat → Option Str
  instanceGroupSize : Nat → Except Str Int

/-- The delete retry loop (source lines 582-587): while the last attempt
failed and fewer than 20 retries have been made, sleep 2000 ms and reissue
the request, without inspecting the error.  Returns the final attempt index,
the sleeps taken (in ms), and the final outcome. -/
def deleteRetryLoop (f : Nat → Option Str) (attempt : Nat)
    (cur : Option Str) : Nat × List Nat × Option Str :=
  match cur with
  | none => (attempt, [], none)
  | some e =>
    if attempt < 20 then
      let r := deleteRetryLoop f (attempt + 1) (f (attempt + 1))
      (r.1, 2000 :: r.2.1, r.2.2)
    else (attempt, [], some e)
termination_by 20 - attempt

/-- The size-draining wait loop of delete (source lines 598-618).  Note the
Go scoping at line 603: `instanceGroup, err := ...` redeclares `err` inside
the loop body, so the assignment `err = computeSharedOperationWait(...)` at
line 617 targets that inner shadowing variable and is a dead store.  The
loop condition keeps testing the error captured before the loop (`outerErr`
here), and the result of every operation wait after the first is discarded
(`_laterWait` below).  Iteration `k` fetches size `k` and discards wait
`k + 1`. -/
def deleteDrainLoop (env : DeleteEnv) (outerErr : Option Str)
    (currentSize : Int) (k : Nat) : Option Str :=
  match outerErr with
  | none => none
  | some e =>
    if currentSize > 0 then
      if strContains e "timeout".data = false then some e
      else
        match env.instanceGroupSize k with
        | .error ge =>
          some ("Error getting instance group size: ".data ++ ge)
        | .ok instanceGroupSize =>
          if instanceGroupSize ≥ currentSize then
            some "Error, instance group isn\x27t shrinking during delete".data
          else
            let _laterWait := env.operationWait (k + 1)
            deleteDrainLoop env outerErr instanceGroupSize (k + 1)
    else none
termination_by currentSize.toNat
decreasing_by
  simp_wf
  omega

/-- `resourceComputeInstanceGroupManagerDelete` (source lines 559-622), after
identifier and zone resolution: the blind retry loop around the delete
request, the wrapped error when every attempt failed, then the initial
operation wait feeding the drain loop.  Returns the retry telemetry (final
attempt index and sleeps) together with the outcome (`none` = the id is
cleared and delete returns nil). -/
def resourceComputeInstanceGroupManagerDelete (env : DeleteEnv)
    (targetSize : Int) : (Nat × List Nat) × Option Str :=
  let r := deleteRetryLoop env.deleteAttempt 0 (env.deleteAttempt 0)
  match r.2.2 with
  | some e =>
    ((r.1, r.2.1), some ("Error deleting instance group manager: ".data ++ e))
  | none =>
    ((r.1, r.2.1), deleteDrainLoop env (env.operationWait 0) targetSize 0)

/-- Delete environment exhibiting the stale-error behaviour of the drain
loop: the delete request succeeds at once, the first operation wait times
out, every later wait fails with an error that does not contain "timeout",
and the observed group size shrinks 6, 3, 0. -/
def staleDrainEnv : DeleteEnv where
  deleteAttempt := fun _ => none
  operationWait := fun k =>
    if k = 0 then some "resource timeout while waiting".data
    else some "googleapi: Error 403: permission denied".data
  instanceGroupSize := fun k =>
    if k = 0 then .ok 6 else if k = 1 then .ok 3 else .ok 0

/-- Delete environment whose every delete attempt fails. -/
def allFailEnv : DeleteEnv where
  deleteAttempt := fun _ => some "quota exceeded".data
  operationWait := fun _ => none
  instanceGroupSize := fun _ => .ok 0

/-- Delete environment whose first two delete attempts fail and whose third
succeeds, with a clean operation wait. -/
def thirdTryEnv : DeleteEnv where
  deleteAttempt := fun k => if k < 2 then some "conn reset".data else none
  operationWait := fun _ => none
  instanceGroupSize := fun _ => .ok 0

/-! ## The state importer -/

/-- The slice of resource data the importer touches. -/
structure ImportData where
  id : Str := []
  wait_for_instances : Bool := false
  project : Str := []
  zone : Str := []
  name : Str := []
deriving DecidableEq, Repr

/-- The import error message (source line 761). -/
def invalidImportMsg : Str :=
  "Invalid instance group manager import ID. Expecting \x7bprojectId\x7d/\x7bzone\x7d/\x7bname\x7d.".data

/-- `resourceInstanceGroupManagerStateImporter` (source lines 754-767):
`wait_for_instances` is set to false first, unconditionally; then the id is
parsed and rejected unless it carries both zone and project; the parsed
triple seeds the state. -/
def resourceInstanceGroupManagerStateImporter (d : ImportData) :
    Except Str ImportData :=
  let d := { d with wait_for_instances := false }
  match parseInstanceGroupManagerId d.id with
  | .error e => .error e
  | .ok zonalID =>
    if zonalID.Zone = [] ∨ zonalID.Project = [] then
      .error invalidImportMsg
    else
      .ok { d with
              project := zonalID.Project
              zone := zonalID.Zone
              name := zonalID.Name }

/-- The `wait_for_instances` guard of the read path (source line 447): read
enters the blocking wait-for-instances state loop exactly when the stored
flag is true. -/
def readEntersWaitLoop (d : ImportData) : Bool :=
  d.wait_for_instances

/-- An import invocation whose supplied state has `wait_for_instances`
set to true. -/
def importInput : ImportData :=
  { id := "proj-1/us-central1-a/igm-1".data
    wait_for_instances := true }

/-- The state `importInput` is seeded to. -/
def importOutput : ImportData :=
  { id := importInput.id
    wait_for_instances := false
    project := "proj-1".data
    zone := "us-central1-a".data
    name := "igm-1".data }

/-! ## Lemmas about the identifier codec -/

theorem splitOnChar_ne_nil (sep : Char) (l : Str) : splitOnChar sep l ≠ [] := by
  induction l with
  | nil => simp [splitOnChar]
  | cons c cs ih =>
    simp only [splitOnChar]
    split
    · simp
    · cases h : splitOnChar sep cs with
      | nil => simp
      | cons h t => simp

theorem splitOnChar_of_not_mem {sep : Char} {l : Str} (h : sep ∉ l) :
    splitOnChar sep l = [l] := by
  induction l with
  | nil => rfl
  | cons c cs ih =>
    have hc : ¬ c = sep := fun e => h (e ▸ List.mem_cons_self c cs)
    have hcs : sep ∉ cs := fun e => h (List.mem_cons_of_mem c e)
    simp only [splitOnChar, if_neg hc, ih hcs]

theorem splitOnChar_append {sep : Char} {p : Str} (rest : Str) (h : sep ∉ p) :
    splitOnChar sep (p ++ sep :: rest) = p :: splitOnChar sep rest := by
  induction p with
  | nil => simp [splitOnChar]
  | cons c cs ih =>
    have hc : ¬ c = sep := fun e => h (e ▸ List.mem_cons_self c cs)
    have hcs : sep ∉ cs := fun e => h (List.mem_cons_of_mem c e)
    simp only [List.cons_append, splitOnChar, if_neg hc, List.append_eq, ih hcs]

theorem slash_not_mem_of_all_idChar {s : Str} (h : s.all isIdChar = true) :
    '/' ∉ s := by
  intro hm
  have := List.all_eq_true.mp h _ hm
  simp [isIdChar] at this

/-- C1 counterexample: the triple `{project: "", zone: "", name: "a"}` has a
name matching `[a-z0-9-]+` (and per the data-model empty project/zone are
valid, to be resolved later), yet `parseInstanceGroupManagerId` of its
`terraformId` `"//a"` is an `InvalidIdentifier` error, not the triple. -/
theorem parse_terraformId_roundtrip_cex :
    instanceGroupManagerIdNameRegexMatch "a".data = true ∧
    parseInstanceGroupManagerId
        (instanceGroupManagerId.mk [] [] "a".data).terraformId =
      .error invalidIgmIdMsg := by
  exact ⟨by decide, by rfl⟩

/-- C1 (amended): for every identifier triple whose project matches the
project pattern and whose zone and name match `[a-z0-9-]+`, parsing the
encoded `terraformId` string `project/zone/name` yields exactly the original
triple. -/
theorem parse_terraformId_roundtrip (i : instanceGroupManagerId)
    (hp : projectRegexMatch i.Project = true)
    (hz : instanceGroupManagerIdNameRegexMatch i.Zone = true)
    (hn : instanceGroupManagerIdNameRegexMatch i.Name = true) :
    parseInstanceGroupManagerId i.terraformId = .ok i := by
  obtain ⟨P, Z, N⟩ := i
  simp only [projectRegexMatch, Bool.and_eq_true] at hp
  simp only [instanceGroupManagerIdNameRegexMatch, Bool.and_eq_true] at hz hn
  have hsplit : splitOnChar '/' (instanceGroupManagerId.mk P Z N).terraformId
      = [P, Z, N] := by
    show splitOnChar '/' (P ++ ('/' :: Z) ++ ('/' :: N)) = [P, Z, N]
    rw [List.append_assoc, List.cons_append,
      splitOnChar_append _ (slash_not_mem_of_all_idChar hp.2),
      splitOnChar_append _ (slash_not_mem_of_all_idChar hz.2),
      splitOnChar_of_not_mem (slash_not_mem_of_all_idChar hn.2)]
  have hregex : instanceGroupManagerIdRegexMatch
      (instanceGroupManagerId.mk P Z N).terraformId = true := by
    simp only [instanceGroupManagerIdRegexMatch, hsplit, Bool.and_eq_true]
    refine ⟨⟨?_, ?_⟩, ?_⟩ <;>
      simp [projectRegexMatch, instanceGroupManagerIdNameRegexMatch, hp.1, hp.2,
        hz.1, hz.2, hn.1, hn.2]
  simp [parseInstanceGroupManagerId, hregex, hsplit]

/-- Witness for `parse_terraformId_roundtrip` at a concrete triple. -/
theorem parse_terraformId_roundtrip_witness :
    parseInstanceGroupManagerId
        (instanceGroupManagerId.mk "my-proj".data "us-central1-a".data
          "igm-1".data).terraformId =
      .ok (instanceGroupManagerId.mk "my-proj".data "us-central1-a".data
          "igm-1".data) :=
  parse_terraformId_roundtrip _ (by decide) (by decide) (by decide)

/-- C2: `parseInstanceGroupManagerId` of a bare valid name (matching
`^[a-z0-9-]+$`) yields the triple with empty project and zone; of a string
matching neither the full-id pattern nor the bare-name pattern it yields the
InvalidIdentifier error. -/
theorem parse_bare_name_or_invalid (id : Str) :
    (instanceGroupManagerIdNameRegexMatch id = true →
      parseInstanceGroupManagerId id = .ok ⟨[], [], id⟩) ∧
    (instanceGroupManagerIdRegexMatch id = false →
      instanceGroupManagerIdNameRegexMatch id = false →
      parseInstanceGroupManagerId id = .error invalidIgmIdMsg) := by
  constructor
  · intro hname
    simp only [instanceGroupManagerIdNameRegexMatch, Bool.and_eq_true] at hname
    have hsplit : splitOnChar '/' id = [id] :=
      splitOnChar_of_not_mem (slash_not_mem_of_all_idChar hname.2)
    have hregex : instanceGroupManagerIdRegexMatch id = false := by
      simp [instanceGroupManagerIdRegexMatch, hsplit]
    simp [parseInstanceGroupManagerId, hregex,
      instanceGroupManagerIdNameRegexMatch, hname.1, hname.2]
  · intro hregex hname
    simp [parseInstanceGroupManagerId, hregex, hname]

/-- Witness for `parse_bare_name_or_invalid`: a bare name parses to the
empty-project/zone triple, and an id matching neither pattern errors. -/
theorem parse_bare_name_or_invalid_witness :
    parseInstanceGroupManagerId "igm-1".data = .ok ⟨[], [], "igm-1".data⟩ ∧
    parseInstanceGroupManagerId "bad_id".data = .error invalidIgmIdMsg :=
  ⟨(parse_bare_name_or_invalid "igm-1".data).1 (by decide),
   (parse_bare_name_or_invalid "bad_id".data).2 (by decide) (by decide)⟩

/-- C3 counterexample: the configuration `[{fixed = 0}]` sets exactly one of
the fixed/percent fields and that field is non-negative, yet
`flattenFixedOrPercent (expandFixedOrPercent x)` is the empty list, not `x`. -/
theorem flatten_expand_fixedOrPercent_cex :
    flattenFixedOrPercent (expandFixedOrPercent [{ fixed := some 0 }]) = [] ∧
    ([] : List FixedOrPercentMap) ≠ [{ fixed := some 0 }] := by decide

/-- C3 (amended): for every fixed-or-percent configuration in which exactly
one of the fixed/percent fields is set and that field is strictly positive,
`flattenFixedOrPercent (expandFixedOrPercent x)` reproduces `x`. -/
theorem flatten_expand_fixedOrPercent (m : FixedOrPercentMap)
    (h : ((∃ f, m.fixed = some f ∧ 0 < f) ∧ m.percent = none) ∨
      (m.fixed = none ∧ ∃ p, m.percent = some p ∧ 0 < p)) :
    flattenFixedOrPercent (expandFixedOrPercent [m]) = [m] := by
  obtain ⟨mf, mp⟩ := m
  rcases h with ⟨⟨f, hf, hfpos⟩, hp⟩ | ⟨hf, p, hp, hppos⟩ <;> subst hf <;> subst hp
  · simp [expandFixedOrPercent, flattenFixedOrPercent, intField, hfpos,
      show ¬((0 : Int) > 0) by omega]
  · simp [expandFixedOrPercent, flattenFixedOrPercent, intField, hppos]

/-- Witness for `flatten_expand_fixedOrPercent`: a fixed-only and a
percent-only configuration each round-trip. -/
theorem flatten_expand_fixedOrPercent_witness :
    flattenFixedOrPercent (expandFixedOrPercent [{ fixed := some 7 }]) =
      [{ fixed := some 7 }] ∧
    flattenFixedOrPercent (expandFixedOrPercent [{ percent := some 30 }]) =
      [{ percent := some 30 }] :=
  ⟨flatten_expand_fixedOrPercent { fixed := some 7 }
      (Or.inl ⟨⟨7, rfl, by decide⟩, rfl⟩),
   flatten_expand_fixedOrPercent { percent := some 30 }
      (Or.inr ⟨rfl, 30, rfl, by decide⟩)⟩

/-- C4: the fixed-or-percent transcoder's precedence.  On read
(`flattenFixedOrPercent`): a single percent-only map when `Percent > 0`, else
a single fixed-only map when `Fixed > 0`, else the empty list.  On write
(`expandFixedOrPercent`): `Percent` is set when the configured percent is
positive, otherwise `Fixed` is set and marked in `ForceSendFields` so that it
is sent explicitly even when 0. -/
theorem fixedOrPercent_precedence (fop : FixedOrPercent) (m : FixedOrPercentMap) :
    (0 < fop.Percent →
      flattenFixedOrPercent fop = [{ percent := some fop.Percent }]) ∧
    (fop.Percent ≤ 0 → 0 < fop.Fixed →
      flattenFixedOrPercent fop = [{ fixed := some fop.Fixed }]) ∧
    (fop.Percent ≤ 0 → fop.Fixed ≤ 0 → flattenFixedOrPercent fop = []) ∧
    (0 < intField m.percent →
      expandFixedOrPercent [m] = { Percent := intField m.percent }) ∧
    (intField m.percent ≤ 0 →
      expandFixedOrPercent [m] =
        { Fixed := intField m.fixed, ForceSendFields := ["Fixed".data] }) := by
  refine ⟨?_, ?_, ?_, ?_, ?_⟩
  · intro h
    simp [flattenFixedOrPercent, h]
  · intro h1 h2
    simp [flattenFixedOrPercent, h2, show ¬(0 < fop.Percent) by omega]
  · intro h1 h2
    simp [flattenFixedOrPercent, show ¬(0 < fop.Percent) by omega,
      show ¬(0 < fop.Fixed) by omega]
  · intro h
    simp [expandFixedOrPercent, h]
  · intro h
    simp [expandFixedOrPercent, show ¬(0 < intField m.percent) by omega]

/-- Witness for `fixedOrPercent_precedence`: percent wins on read even when
both server fields are positive; a zero configured fixed is expanded with an
explicit force-send marker. -/
theorem fixedOrPercent_precedence_witness :
    flattenFixedOrPercent { Fixed := 2, Percent := 30 } =
      [{ percent := some 30 }] ∧
    expandFixedOrPercent [{ fixed := some 0 }] =
      { Fixed := 0, ForceSendFields := ["Fixed".data] } :=
  ⟨(fixedOrPercent_precedence { Fixed := 2, Percent := 30 }
      { fixed := some 0 }).1 (by decide),
   (fixedOrPercent_precedence { Fixed := 2, Percent := 30 }
      { fixed := some 0 }).2.2.2.2 (by decide)⟩

/-- C9 counterexample: for a server update policy whose `MaxSurge` carries
both a non-zero `Fixed` and a non-zero `Percent`, `flattenUpdatePolicy`
writes both non-zero values into the state map at once, so the flattened
output does not keep fixed/percent mutually exclusive. -/
theorem flattenUpdatePolicy_exclusivity_cex :
    (flattenUpdatePolicy (some
        { MinimalAction := "REPLACE".data
          Type_ := "PROACTIVE".data
          MaxSurge := some { Fixed := 3, Percent := 50 } })).map
        (fun up => (up.max_surge_fixed, up.max_surge_percent)) =
      [(3, 50)] ∧ (3 : Int) ≠ 0 ∧ (50 : Int) ≠ 0 := by decide

/-- C9 (amended): `flattenFixedOrPercent` (used for version `target_size`)
keeps fixed and percent mutually exclusive, with `Percent > 0` taking
precedence; `flattenUpdatePolicy` copies `MaxSurge`/`MaxUnavailable` fixed
and percent verbatim, so its output is exclusive only for server values that
already are. -/
theorem flatten_fixedOrPercent_exclusive (fop : FixedOrPercent)
    (u : InstanceGroupManagerUpdatePolicy)
    (hs : ∀ ms, u.MaxSurge = some ms → ms.Fixed = 0 ∨ ms.Percent = 0)
    (hu : ∀ mu, u.MaxUnavailable = some mu → mu.Fixed = 0 ∨ mu.Percent = 0) :
    (∀ m ∈ flattenFixedOrPercent fop,
      ¬(intField m.fixed ≠ 0 ∧ intField m.percent ≠ 0)) ∧
    (0 < fop.Percent →
      flattenFixedOrPercent fop = [{ percent := some fop.Percent }]) ∧
    (∀ up ∈ flattenUpdatePolicy (some u),
      ¬(up.max_surge_fixed ≠ 0 ∧ up.max_surge_percent ≠ 0) ∧
      ¬(up.max_unavailable_fixed ≠ 0 ∧ up.max_unavailable_percent ≠ 0)) := by
  refine ⟨?_, ?_, ?_⟩
  · intro m hm
    simp only [flattenFixedOrPercent] at hm
    split at hm <;> [skip; split at hm] <;> simp_all [intField]
  · intro hpos
    simp [flattenFixedOrPercent, hpos]
  · intro up hup
    simp only [flattenUpdatePolicy, List.mem_singleton] at hup
    subst hup
    constructor
    · cases hms : u.MaxSurge with
      | none => simp [hms]
      | some ms => rcases hs ms hms with h | h <;> simp [hms, h]
    · cases hmu : u.MaxUnavailable with
      | none => simp [hmu]
      | some mu => rcases hu mu hmu with h | h <;> simp [hmu, h]

/-- Witness for `flatten_fixedOrPercent_exclusive` at a concrete server value
and update policy. -/
theorem flatten_fixedOrPercent_exclusive_witness :
    (∀ m ∈ flattenFixedOrPercent { Fixed := 4, Percent := 25 },
      ¬(intField m.fixed ≠ 0 ∧ intField m.percent ≠ 0)) ∧
    (∀ up ∈ flattenUpdatePolicy (some
        { MinimalAction := "RESTART".data
          Type_ := "OPPORTUNISTIC".data
          MaxSurge := some { Fixed := 0, Percent := 25 }
          MaxUnavailable := some { Fixed := 2, Percent := 0 } }),
      ¬(up.max_surge_fixed ≠ 0 ∧ up.max_surge_percent ≠ 0) ∧
      ¬(up.max_unavailable_fixed ≠ 0 ∧ up.max_unavailable_percent ≠ 0)) :=
  ⟨(flatten_fixedOrPercent_exclusive { Fixed := 4, Percent := 25 }
      { MinimalAction := "RESTART".data
        Type_ := "OPPORTUNISTIC".data
        MaxSurge := some { Fixed := 0, Percent := 25 }
        MaxUnavailable := some { Fixed := 2, Percent := 0 } }
      (fun ms hms => by cases hms; exact Or.inl rfl)
      (fun mu hmu => by cases hmu; exact Or.inr rfl)).1,
   (flatten_fixedOrPercent_exclusive { Fixed := 4, Percent := 25 }
      { MinimalAction := "RESTART".data
        Type_ := "OPPORTUNISTIC".data
        MaxSurge := some { Fixed := 0, Percent := 25 }
        MaxUnavailable := some { Fixed := 2, Percent := 0 } }
      (fun ms hms => by cases hms; exact Or.inl rfl)
      (fun mu hmu => by cases hmu; exact Or.inr rfl)).2.2⟩

/-! ## Lemmas about the update path -/

theorem patch_mem_resizeStage (d : UpdateData) (env : UpdateEnv)
    (calls : List UpdateCall) (b : InstanceGroupManager) :
    UpdateCall.patch b ∈ (updateResizeStage d env calls).1 ↔
      UpdateCall.patch b ∈ calls := by
  unfold updateResizeStage
  cases d.hasChange_target_size <;>
    cases env.resizeErr <;> cases env.resizeWaitErr <;> simp

theorem patch_mem_namedPortsStage (d : UpdateData) (env : UpdateEnv)
    (calls : List UpdateCall) (b : InstanceGroupManager) :
    UpdateCall.patch b ∈ (updateNamedPortsStage d env calls).1 ↔
      UpdateCall.patch b ∈ calls := by
  unfold updateNamedPortsStage
  cases d.hasChange_named_port <;>
    cases env.setNamedPortsErr <;> cases env.setNamedPortsWaitErr <;>
    simp [patch_mem_resizeStage]

theorem patch_mem_update_iff (d : UpdateData) (env : UpdateEnv)
    (b : InstanceGroupManager) :
    UpdateCall.patch b ∈ (resourceComputeInstanceGroupManagerUpdate d env).1 ↔
      ((d.hasChange_target_pools || d.hasChange_auto_healing_policies ||
          d.hasChange_version || d.hasChange_update_policy) = true ∧
        b = updatedManagerFor d) := by
  unfold resourceComputeInstanceGroupManagerUpdate
  cases h : (d.hasChange_target_pools || d.hasChange_auto_healing_policies ||
      d.hasChange_version || d.hasChange_update_policy) <;>
    cases env.patchErr <;> cases env.patchWaitErr <;>
    simp [h, patch_mem_namedPortsStage]

theorem updatedManagerFor_spec (d : UpdateData) :
    (updatedManagerFor d).Fingerprint = d.fingerprint ∧
    (updatedManagerFor d).TargetPools =
      (if d.hasChange_target_pools then convertStringSet d.target_pools
        else []) ∧
    (updatedManagerFor d).AutoHealingPolicies =
      (if d.hasChange_auto_healing_policies then
        expandAutoHealingPolicies d.auto_healing_policies else []) ∧
    (updatedManagerFor d).Versions =
      (if d.hasChange_version then expandVersions d.version else []) ∧
    (updatedManagerFor d).UpdatePolicy =
      (if d.hasChange_update_policy then
        some (expandUpdatePolicy d.update_policy) else none) ∧
    (updatedManagerFor d).ForceSendFields =
      (if d.hasChange_auto_healing_policies then
        ["AutoHealingPolicies".data] else []) := by
  unfold updatedManagerFor
  cases d.hasChange_target_pools <;> cases d.hasChange_auto_healing_policies <;>
    cases d.hasChange_version <;> cases d.hasChange_update_policy <;> simp

/-- C5: every patch body the update path issues carries the stored
fingerprint and contains exactly the changed fields among `target_pools`,
`auto_healing_policies`, `version` and `update_policy` (an unchanged field
stays at its zero value, i.e. absent from the request); and no patch call is
issued at all when none of those four fields changed. -/
theorem update_patch_exactly_changed_fields (d : UpdateData) (env : UpdateEnv) :
    (∀ body, UpdateCall.patch body ∈
        (resourceComputeInstanceGroupManagerUpdate d env).1 →
      body.Fingerprint = d.fingerprint ∧
      body.TargetPools =
        (if d.hasChange_target_pools then convertStringSet d.target_pools
          else []) ∧
      body.AutoHealingPolicies =
        (if d.hasChange_auto_healing_policies then
          expandAutoHealingPolicies d.auto_healing_policies else []) ∧
      body.Versions =
        (if d.hasChange_version then expandVersions d.version else []) ∧
      body.UpdatePolicy =
        (if d.hasChange_update_policy then
          some (expandUpdatePolicy d.update_policy) else none)) ∧
    ((d.hasChange_target_pools || d.hasChange_auto_healing_policies ||
        d.hasChange_version || d.hasChange_update_policy) = false →
      ∀ body, UpdateCall.patch body ∉
        (resourceComputeInstanceGroupManagerUpdate d env).1) := by
  constructor
  · intro body hb
    obtain ⟨hchange, rfl⟩ := (patch_mem_update_iff d env body).mp hb
    obtain ⟨h1, h2, h3, h4, h5, h6⟩ := updatedManagerFor_spec d
    exact ⟨h1, h2, h3, h4, h5⟩
  · intro hch body hb
    obtain ⟨hc, _⟩ := (patch_mem_update_iff d env body).mp hb
    rw [hch] at hc
    exact Bool.false_ne_true hc

/-- Witness for `update_patch_exactly_changed_fields`: when only
`target_pools` changed, the issued patch body echoes the fingerprint, carries
the new target pools, and leaves the other optional fields at their absent
values. -/
theorem update_patch_exactly_changed_fields_witness :
    (updatedManagerFor updateOnlyTargetPools).Fingerprint =
        updateOnlyTargetPools.fingerprint ∧
    (updatedManagerFor updateOnlyTargetPools).TargetPools =
      (if updateOnlyTargetPools.hasChange_target_pools then
        convertStringSet updateOnlyTargetPools.target_pools else []) ∧
    (updatedManagerFor updateOnlyTargetPools).AutoHealingPolicies =
      (if updateOnlyTargetPools.hasChange_auto_healing_policies then
        expandAutoHealingPolicies updateOnlyTargetPools.auto_healing_policies
        else []) ∧
    (updatedManagerFor updateOnlyTargetPools).Versions =
      (if updateOnlyTargetPools.hasChange_version then
        expandVersions updateOnlyTargetPools.version else []) ∧
    (updatedManagerFor updateOnlyTargetPools).UpdatePolicy =
      (if updateOnlyTargetPools.hasChange_update_policy then
        some (expandUpdatePolicy updateOnlyTargetPools.update_policy)
        else none) :=
  (update_patch_exactly_changed_fields updateOnlyTargetPools {}).1
    (updatedManagerFor updateOnlyTargetPools) (by decide)

/-- C6: when `named_port` is the only changed field the update path issues
exactly one set-named-ports call (and so no patch call); when `target_size`
is the only changed field it issues exactly one resize call (and no patch). -/
theorem update_special_cased_fields (d : UpdateData) (env : UpdateEnv)
    (hTP : d.hasChange_target_pools = false)
    (hAHP : d.hasChange_auto_healing_policies = false)
    (hV : d.hasChange_version = false)
    (hUP : d.hasChange_update_policy = false) :
    (d.hasChange_named_port = true → d.hasChange_target_size = false →
      (resourceComputeInstanceGroupManagerUpdate d env).1 =
        [UpdateCall.setNamedPorts (getNamedPortsBeta d.named_port)]) ∧
    (d.hasChange_named_port = false → d.hasChange_target_size = true →
      (resourceComputeInstanceGroupManagerUpdate d env).1 =
        [UpdateCall.resize d.target_size]) := by
  unfold resourceComputeInstanceGroupManagerUpdate updateNamedPortsStage
    updateResizeStage
  constructor
  · intro hNP hTS
    cases env.setNamedPortsErr <;> cases env.setNamedPortsWaitErr <;>
      simp [hTP, hAHP, hV, hUP, hNP, hTS]
  · intro hNP hTS
    cases env.resizeErr <;> cases env.resizeWaitErr <;>
      simp [hTP, hAHP, hV, hUP, hNP, hTS]

/-- Witness for `update_special_cased_fields`: a named-port-only change
issues only the set-named-ports call; a target-size-only change issues only
the resize call. -/
theorem update_special_cased_fields_witness :
    (resourceComputeInstanceGroupManagerUpdate updateOnlyNamedPort {}).1 =
      [UpdateCall.setNamedPorts
        (getNamedPortsBeta updateOnlyNamedPort.named_port)] ∧
    (resourceComputeInstanceGroupManagerUpdate updateOnlyTargetSize {}).1 =
      [UpdateCall.resize updateOnlyTargetSize.target_size] :=
  ⟨(update_special_cased_fields updateOnlyNamedPort {} rfl rfl rfl rfl).1
      rfl rfl,
   (update_special_cased_fields updateOnlyTargetSize {} rfl rfl rfl rfl).2
      rfl rfl⟩

/-! ## Lemmas about the delete retry loop -/

theorem deleteRetryLoop_all_fail (f : Nat → Option Str) (e : Nat → Str) :
    ∀ n a, n = 20 - a → a ≤ 20 →
      (∀ j, a ≤ j → j ≤ 20 → f j = some (e j)) →
      deleteRetryLoop f a (f a) =
        (20, List.replicate (20 - a) 2000, some (e 20)) := by
  intro n
  induction n with
  | zero =>
    intro a hn ha hf
    have ha20 : a = 20 := by omega
    subst ha20
    rw [hf 20 le_rfl le_rfl, deleteRetryLoop]
    simp
  | succ n ih =>
    intro a hn ha hf
    have hlt : a < 20 := by omega
    rw [hf a le_rfl (by omega), deleteRetryLoop]
    simp only [if_pos hlt]
    rw [ih (a + 1) (by omega) (by omega)
      (fun j hj1 hj2 => hf j (by omega) hj2)]
    have : 20 - a = (20 - (a + 1)) + 1 := by omega
    rw [this, List.replicate_succ]

theorem deleteRetryLoop_first_success (f : Nat → Option Str) (k : Nat) :
    ∀ n a, n = k - a → a ≤ k → k ≤ 20 →
      (∀ j, a ≤ j → j < k → f j ≠ none) → f k = none →
      deleteRetryLoop f a (f a) = (k, List.replicate (k - a) 2000, none) := by
  intro n
  induction n with
  | zero =>
    intro a hn ha hk hfail hok
    have hak : a = k := by omega
    subst hak
    rw [hok, deleteRetryLoop]
    simp
  | succ n ih =>
    intro a hn ha hk hfail hok
    have hak : a < k := by omega
    obtain ⟨ea, hea⟩ : ∃ x, f a = some x := by
      cases h : f a with
      | none => exact absurd h (hfail a le_rfl hak)
      | some x => exact ⟨x, rfl⟩
    rw [hea, deleteRetryLoop]
    simp only [if_pos (show a < 20 by omega)]
    rw [ih (a + 1) (by omega) (by omega) hk
      (fun j hj1 hj2 => hfail j (by omega) hj2) hok]
    have : k - a = (k - (a + 1)) + 1 := by omega
    rw [this, List.replicate_succ]

theorem deleteRetryLoop_blind (f g : Nat → Option Str)
    (h : ∀ j, (f j).isSome = (g j).isSome) :
    ∀ n a, n = 20 - a →
      (deleteRetryLoop f a (f a)).1 = (deleteRetryLoop g a (g a)).1 ∧
      (deleteRetryLoop f a (f a)).2.1 = (deleteRetryLoop g a (g a)).2.1 := by
  intro n
  induction n with
  | zero =>
    intro a hn
    have hge : ¬ a < 20 := by omega
    cases hf : f a with
    | none =>
      have hg : g a = none := by
        have := h a
        rw [hf] at this
        exact Option.eq_none_iff_forall_not_mem.mpr
          (fun x hx => by rw [Option.mem_def] at hx; rw [hx] at this; simp at this)
      rw [hg, deleteRetryLoop, deleteRetryLoop]
      exact ⟨rfl, rfl⟩
    | some x =>
      obtain ⟨y, hg⟩ : ∃ y, g a = some y := by
        have := h a
        rw [hf] at this
        cases hga : g a with
        | none => rw [hga] at this; simp at this
        | some y => exact ⟨y, rfl⟩
      rw [hg, deleteRetryLoop, deleteRetryLoop]
      simp [hge]
  | succ n ih =>
    intro a hn
    cases hf : f a with
    | none =>
      have hg : g a = none := by
        have := h a
        rw [hf] at this
        cases hga : g a with
        | none => rfl
        | some y => rw [hga] at this; simp at this
      rw [hg, deleteRetryLoop, deleteRetryLoop]
      exact ⟨rfl, rfl⟩
    | some x =>
      obtain ⟨y, hg⟩ : ∃ y, g a = some y := by
        have := h a
        rw [hf] at this
        cases hga : g a with
        | none => rw [hga] at this; simp at this
        | some y => exact ⟨y, rfl⟩
      rw [hg, deleteRetryLoop, deleteRetryLoop]
      by_cases hlt : a < 20
      · simp only [if_pos hlt]
        obtain ⟨h1, h2⟩ := ih (a + 1) (by omega)
        exact ⟨h1, by rw [h2]⟩
      · simp [hlt]

/-- C7: the delete request is blindly retried.  The retry loop's attempt
count and sleeps depend only on which attempts fail (never on the error
value); when every attempt fails, delete stops after the initial request
plus 20 retries, each preceded by a fixed 2000 ms sleep, and returns an
error wrapping the last failure; as soon as some attempt succeeds the loop
is left and delete proceeds to the operation-wait phase. -/
theorem delete_blind_retry_policy (env : DeleteEnv) (targetSize : Int)
    (e : Nat → Str) (k : Nat) (g : Nat → Option Str) :
    ((∀ j, j ≤ 20 → env.deleteAttempt j = some (e j)) →
      resourceComputeInstanceGroupManagerDelete env targetSize =
        ((20, List.replicate 20 2000),
          some ("Error deleting instance group manager: ".data ++ e 20))) ∧
    (k ≤ 20 → (∀ j, j < k → env.deleteAttempt j ≠ none) →
      env.deleteAttempt k = none →
      resourceComputeInstanceGroupManagerDelete env targetSize =
        ((k, List.replicate k 2000),
          deleteDrainLoop env (env.operationWait 0) targetSize 0)) ∧
    ((∀ j, (env.deleteAttempt j).isSome = (g j).isSome) →
      (deleteRetryLoop env.deleteAttempt 0 (env.deleteAttempt 0)).1 =
          (deleteRetryLoop g 0 (g 0)).1 ∧
        (deleteRetryLoop env.deleteAttempt 0 (env.deleteAttempt 0)).2.1 =
          (deleteRetryLoop g 0 (g 0)).2.1) := by
  refine ⟨?_, ?_, ?_⟩
  · intro hall
    have h := deleteRetryLoop_all_fail env.deleteAttempt e 20 0 rfl
      (by omega) (fun j _ hj2 => hall j hj2)
    unfold resourceComputeInstanceGroupManagerDelete
    rw [h]
  · intro hk hfail hok
    have h := deleteRetryLoop_first_success env.deleteAttempt k k 0 rfl
      (by omega) hk (fun j _ hj2 => hfail j hj2) hok
    unfold resourceComputeInstanceGroupManagerDelete
    rw [h]
    simp
  · exact fun hiso => deleteRetryLoop_blind env.deleteAttempt g hiso 20 0 rfl

/-- Witness for `delete_blind_retry_policy`: an always-failing delete stops
after 21 attempts and 20 sleeps with the wrapped last error; a delete whose
third attempt succeeds leaves the loop after two sleeps and finishes. -/
theorem delete_blind_retry_policy_witness :
    resourceComputeInstanceGroupManagerDelete allFailEnv 3 =
      ((20, List.replicate 20 2000),
        some ("Error deleting instance group manager: ".data ++
          "quota exceeded".data)) ∧
    resourceComputeInstanceGroupManagerDelete thirdTryEnv 0 =
      ((2, List.replicate 2 2000), none) := by
  constructor
  · exact (delete_blind_retry_policy allFailEnv 3
      (fun _ => "quota exceeded".data) 0 (fun _ => none)).1 (fun j _ => rfl)
  · have h := (delete_blind_retry_policy thirdTryEnv 0 (fun _ => []) 2
      (fun _ => none)).2.1 (by omega)
      (fun j hj => by simp [thirdTryEnv, hj])
      (by simp [thirdTryEnv])
    rw [h]
    simp [deleteDrainLoop, thirdTryEnv]

/-- C8, evaluated at the failing input: the first operation wait times out,
every later wait fails with an error not containing "timeout", and the
observed size shrinks 6, 3, 0 — delete nevertheless succeeds, because the
`err` redeclared at source line 603 shadows the loop variable, so the waits
restarted inside the drain loop are never inspected. -/
theorem delete_stale_poll_error_evaluation :
    resourceComputeInstanceGroupManagerDelete staleDrainEnv 10 =
      ((0, []), none) ∧
    staleDrainEnv.operationWait 1 =
      some "googleapi: Error 403: permission denied".data ∧
    strContains "googleapi: Error 403: permission denied".data
      "timeout".data = false := by
  refine ⟨?_, rfl, by decide⟩
  unfold resourceComputeInstanceGroupManagerDelete
  rw [show deleteRetryLoop staleDrainEnv.deleteAttempt 0
      (staleDrainEnv.deleteAttempt 0) = (0, [], none) from by
    rw [show staleDrainEnv.deleteAttempt 0 = none from rfl, deleteRetryLoop]]
  simp [deleteDrainLoop, staleDrainEnv, strContains]

/-- C10: a successful import yields a state whose `wait_for_instances` is
false regardless of the supplied value, seeded with the project, zone and
name of the parsed id (both zone and project necessarily present), so the
first read after import does not enter the wait-for-instances loop. -/
theorem importer_disables_wait_for_instances (d d' : ImportData)
    (h : resourceInstanceGroupManagerStateImporter d = .ok d') :
    d'.wait_for_instances = false ∧
    readEntersWaitLoop d' = false ∧
    ∃ zonalID, parseInstanceGroupManagerId d.id = .ok zonalID ∧
      zonalID.Zone ≠ [] ∧ zonalID.Project ≠ [] ∧
      d'.project = zonalID.Project ∧ d'.zone = zonalID.Zone ∧
      d'.name = zonalID.Name := by
  simp only [resourceInstanceGroupManagerStateImporter] at h
  split at h
  · simp at h
  · rename_i zonalID hp
    split at h
    · simp at h
    · rename_i hz
      push_neg at hz
      injection h with h'
      subst h'
      exact ⟨rfl, rfl, zonalID, hp, hz.1, hz.2, rfl, rfl, rfl⟩

/-- Witness for `importer_disables_wait_for_instances`: importing
`proj-1/us-central1-a/igm-1` over a state with `wait_for_instances = true`
yields the seeded state with the flag off. -/
theorem importer_disables_wait_for_instances_witness :
    importOutput.wait_for_instances = false ∧
    readEntersWaitLoop importOutput = false ∧
    ∃ zonalID, parseInstanceGroupManagerId importInput.id = .ok zonalID ∧
      zonalID.Zone ≠ [] ∧ zonalID.Project ≠ [] ∧
      importOutput.project = zonalID.Project ∧
      importOutput.zone = zonalID.Zone ∧
      importOutput.name = zonalID.Name :=
  importer_disables_wait_for_instances importInput importOutput (by rfl)

end IGM
